import Mathlib

/-!
Shallow embedding of the polling loop of
`src/nodes/TelegramPollingTrigger.node.ts` (the `trigger` method and its
inner `startPolling` loop), together with theorems settling the spec
claims about it.

The embedding models one iteration of the `while (isPolling)` loop as a
pure step function over the loop's mutable state (the `offset` cursor)
and the outcome of the `getUpdates` request, which is either a parsed
JSON response or a thrown transport error carrying an optional HTTP
status (`error.response?.status`).
-/

namespace TelegramPolling

/-- Update record from the Telegram `getUpdates` response. `update_id` is
the numeric identifier field; `keys` stands for `Object.keys(update)`,
the full list of string keys of the JSON record (in real records this
includes `"update_id"` alongside the payload key such as `"message"`). -/
structure Update where
  update_id : Nat
  keys : List String
deriving Repr, DecidableEq

/-- Record emitted to the sink: the code wraps each surviving update as
`{ json: update }`. -/
structure OutputRecord where
  json : Update
deriving Repr, DecidableEq

/-- Parsed body of a `getUpdates` response, `ApiResponse<Update[]>` in the
source: an `ok` flag plus a possibly missing (`null`/`undefined`) result
list. -/
structure ApiResponse where
  ok : Bool
  result : Option (List Update)
deriving Repr, DecidableEq

/-- Outcome of one `this.helpers.request` call: either a parsed response,
or a thrown error whose `response?.status` is the optional HTTP status. -/
inductive RequestResult where
  | success : ApiResponse → RequestResult
  | failure : Option Nat → RequestResult
deriving Repr, DecidableEq

/-- Result of one loop iteration: `next offset emission` continues the
loop with the given cursor and the records passed to `this.emit` (if any
call was made this iteration), while `fatal status` re-throws the error
out of the loop. -/
inductive StepResult where
  | next : Nat → Option (List OutputRecord) → StepResult
  | fatal : Option Nat → StepResult
deriving Repr, DecidableEq

/-- Predicate of the local filter at lines 192-194 of the source:
`Object.keys(update).some((x) => allowedUpdates.includes(x))`. -/
def keepUpdate (allowedUpdates : List String) (update : Update) : Bool :=
  update.keys.any (fun x => allowedUpdates.contains x)

/-- Local kind filter, lines 191-195 of the source: applied only when
`allowedUpdates.length > 0`, otherwise the list is left untouched. -/
def kindFilter (allowedUpdates : List String) (updates : List Update) : List Update :=
  if allowedUpdates.length > 0 then updates.filter (keepUpdate allowedUpdates)
  else updates

/-- Collapse of the configured update kinds in `trigger`, lines 152-156:
`if (allowedUpdates.includes('*')) allowedUpdates = []`. -/
def effectiveAllowedUpdates (updates : List String) : List String :=
  if updates.contains "*" then [] else updates

/-- Body of the POST request sent to the `getUpdates` endpoint,
lines 171-176 of the source. -/
structure GetUpdatesBody where
  offset : Nat
  limit : Nat
  timeout : Nat
  allowed_updates : List String
deriving Repr, DecidableEq

/-- Construction of the request body from the loop state and the
session configuration, mirroring lines 171-176. -/
def requestBody (offset limit timeout : Nat) (allowedUpdates : List String) :
    GetUpdatesBody :=
  { offset := offset, limit := limit, timeout := timeout,
    allowed_updates := allowedUpdates }

/-- One iteration of the `while (isPolling)` loop, lines 165-214 of the
source. `isPolling` is the value of the flag observed inside the catch
block (line 205). On a parsed response: `!ok` or missing result means
`continue` with nothing emitted; a non-empty result sets
`offset = updates[updates.length - 1].update_id + 1`, filters the batch
by `kindFilter`, and emits the wrapped records; an empty result list
leaves the state alone. On a thrown error: a 409 status with
`isPolling == false` is suppressed (`continue`), anything else is
re-thrown (`fatal`). -/
def pollStep (allowedUpdates : List String) (isPolling : Bool) (offset : Nat)
    (res : RequestResult) : StepResult :=
  match res with
  | .success response =>
    if !response.ok then StepResult.next offset none
    else
      match response.result with
      | none => StepResult.next offset none
      | some updates =>
        match updates.getLast? with
        | none => StepResult.next offset none
        | some lastUpdate =>
          StepResult.next (lastUpdate.update_id + 1)
            (some ((kindFilter allowedUpdates updates).map
              (fun update => { json := update })))
  | .failure status =>
    if status == some 409 && !isPolling then StepResult.next offset none
    else StepResult.fatal status

/-- Maximum `update_id` occurring in a batch, the quantity the spec's
cursor sentence speaks of (`max(update_id) + 1`); written from the
spec's words, for comparison with what the code computes. -/
def maxUpdateId (updates : List Update) : Nat :=
  updates.foldl (fun m u => max m u.update_id) 0

/-- Sample update with id 5 whose record carries the payload key
`message` (besides `update_id`, as `Object.keys` reports both). -/
def msg5 : Update := { update_id := 5, keys := ["update_id", "message"] }

/-- Sample update with id 3 carrying the payload key `message`. -/
def msg3 : Update := { update_id := 3, keys := ["update_id", "message"] }

/-- Sample update with id 0 carrying the payload key `message`. -/
def msg0 : Update := { update_id := 0, keys := ["update_id", "message"] }

/-- Sample update with id 1 carrying the payload key `poll`. -/
def poll1 : Update := { update_id := 1, keys := ["update_id", "poll"] }

/-- Sample update with id 2 carrying the payload key `poll`. -/
def poll2 : Update := { update_id := 2, keys := ["update_id", "poll"] }

/-- Successful well-formed response carrying the given batch. -/
def okResponse (updates : List Update) : ApiResponse :=
  { ok := true, result := some updates }

/-- The last element of a list belongs to it, stated via `getLast?`. -/
theorem mem_of_getLast_opt {α : Type} {l : List α} {a : α}
    (h : l.getLast? = some a) : a ∈ l := by
  obtain ⟨hne, rfl⟩ := List.mem_getLast?_eq_getLast h
  exact List.getLast_mem hne

/-- C1: a 409 error with `isPolling == false` is suppressed and the loop
continues to the running check; a 409 error with `isPolling == true`
propagates as fatal; any non-409 error propagates as fatal regardless of
the flag. -/
theorem conflict_error_handling (allowedUpdates : List String) (offset : Nat)
    (status : Option Nat) :
    (pollStep allowedUpdates false offset (.failure (some 409)) =
      StepResult.next offset none)
    ∧ (pollStep allowedUpdates true offset (.failure (some 409)) =
      StepResult.fatal (some 409))
    ∧ (∀ isPolling : Bool, status ≠ some 409 →
      pollStep allowedUpdates isPolling offset (.failure status) =
        StepResult.fatal status) := by
  refine ⟨rfl, rfl, ?_⟩
  intro isPolling hne
  have hbeq : (status == some 409) = false := by
    simp only [beq_eq_false_iff_ne, ne_eq]
    exact hne
  simp [pollStep, hbeq]

/-- C1 witness: a 500-status error while polling is fatal. -/
theorem conflict_error_handling_witness :
    (some 500 : Option Nat) ≠ some 409 ∧
    pollStep [] true 0 (.failure (some 500)) = StepResult.fatal (some 500) :=
  ⟨by decide, (conflict_error_handling [] 0 (some 500)).2.2 true (by decide)⟩

/-- C5: a response with `ok == false`, or with `ok == true` but a missing
result list, causes no emission, leaves the cursor unchanged, and the
loop continues. -/
theorem malformed_response_no_mutation (allowedUpdates : List String)
    (isPolling : Bool) (offset : Nat) (result : Option (List Update)) :
    (pollStep allowedUpdates isPolling offset
      (.success { ok := false, result := result }) =
      StepResult.next offset none)
    ∧ (pollStep allowedUpdates isPolling offset
      (.success { ok := true, result := none }) =
      StepResult.next offset none) :=
  ⟨rfl, rfl⟩

/-- C7: the kind filter is idempotent: applying it twice to a batch
yields the same list as applying it once. -/
theorem kind_filter_idempotent (allowedUpdates : List String)
    (updates : List Update) :
    kindFilter allowedUpdates (kindFilter allowedUpdates updates) =
      kindFilter allowedUpdates updates := by
  unfold kindFilter
  split
  · exact List.filter_eq_self.mpr fun a ha => List.of_mem_filter ha
  · rfl

/-- C2 counterexample: on the batch `[update_id 5, update_id 3]` the code
sets the cursor to `3 + 1 = 4` (last element), while the maximum
update_id plus one is `6`; the claim "cursor equals max(update_id) + 1"
fails on this well-formed successful response. -/
theorem offset_not_max_counterexample :
    pollStep [] true 0 (.success (okResponse [msg5, msg3])) =
      StepResult.next 4 (some [{ json := msg5 }, { json := msg3 }])
    ∧ maxUpdateId [msg5, msg3] + 1 = 6
    ∧ (4 : Nat) ≠ 6 :=
  ⟨rfl, rfl, by decide⟩

/-- C2 amended: for a successful well-formed response, an empty result
list leaves the cursor unchanged with nothing emitted, and a non-empty
result list sets the cursor to the update_id of the LAST element of the
batch plus 1 (which coincides with max(update_id) + 1 exactly when the
last element carries the maximal id, as in id-ordered batches). -/
theorem offset_last_update_id (allowedUpdates : List String) (offset : Nat)
    (isPolling : Bool) (updates : List Update) :
    (updates = [] →
      pollStep allowedUpdates isPolling offset (.success (okResponse updates)) =
        StepResult.next offset none)
    ∧ (∀ lastUpdate, updates.getLast? = some lastUpdate →
      pollStep allowedUpdates isPolling offset (.success (okResponse updates)) =
        StepResult.next (lastUpdate.update_id + 1)
          (some ((kindFilter allowedUpdates updates).map
            (fun update => { json := update })))) := by
  constructor
  · rintro rfl
    rfl
  · intro lastUpdate hlast
    simp [pollStep, okResponse, hlast]

/-- C2 witness: on the single-update batch with update_id 5 at offset 0,
the next offset is 6 and one record is emitted. -/
theorem offset_last_update_id_witness :
    pollStep [] true 0 (.success (okResponse [msg5])) =
      StepResult.next 6 (some [{ json := msg5 }]) :=
  (offset_last_update_id [] 0 true [msg5]).2 msg5 rfl

/-- C3 counterexample: with `allowedUpdates = ["message"]` and a received
batch of one update carrying only the key `poll`, the filter drops
everything, yet the code still calls `this.emit` — with an empty record
list — in that iteration; the claim "no batch is emitted" fails. -/
theorem empty_after_filter_still_emits :
    pollStep ["message"] true 0 (.success (okResponse [poll1])) =
      StepResult.next 2 (some [])
    ∧ (some ([] : List OutputRecord)) ≠ none :=
  ⟨rfl, by decide⟩

/-- C3 amended: for every non-empty received batch all of whose updates
are dropped by the local kind filter, the iteration still invokes the
sink, passing an empty record list (zero records), and advances the
cursor past the batch. -/
theorem empty_after_filter_emits_empty (allowedUpdates : List String)
    (isPolling : Bool) (offset : Nat) (updates : List Update)
    (lastUpdate : Update) (hlast : updates.getLast? = some lastUpdate)
    (hallowed : allowedUpdates.length > 0)
    (hdrop : ∀ u ∈ updates, keepUpdate allowedUpdates u = false) :
    pollStep allowedUpdates isPolling offset (.success (okResponse updates)) =
      StepResult.next (lastUpdate.update_id + 1) (some []) := by
  have hfilter : updates.filter (keepUpdate allowedUpdates) = [] := by
    rw [List.filter_eq_nil_iff]
    intro a ha
    simp [hdrop a ha]
  simp [pollStep, okResponse, hlast, kindFilter, hallowed, hfilter]

/-- C3 witness: the concrete fully-dropped batch from the counterexample,
settled through the amended theorem. -/
theorem empty_after_filter_emits_empty_witness :
    pollStep ["message"] false 7 (.success (okResponse [poll1])) =
      StepResult.next 2 (some []) :=
  empty_after_filter_emits_empty ["message"] false 7 [poll1] poll1 rfl
    (by decide)
    (by intro u hu
        simp only [List.mem_singleton] at hu
        subst hu
        decide)

/-- C4: with an empty `allowedUpdates` no update is dropped; with a
non-empty `allowedUpdates` an update survives the filter exactly when it
occurs in the batch and its record carries at least one allowed key; in
particular with `allowedUpdates = ["message"]` a batch of one `message`
update and one `poll` update keeps only the `message` update. -/
theorem kind_filter_semantics (allowedUpdates : List String)
    (updates : List Update) (u : Update) :
    (kindFilter [] updates = updates)
    ∧ (allowedUpdates ≠ [] →
      (u ∈ kindFilter allowedUpdates updates ↔
        u ∈ updates ∧ ∃ k ∈ u.keys, k ∈ allowedUpdates))
    ∧ kindFilter ["message"] [msg5, poll2] = [msg5] := by
  refine ⟨rfl, ?_, by decide⟩
  intro hne
  have hlen : allowedUpdates.length > 0 := List.length_pos.mpr hne
  simp [kindFilter, hlen, List.mem_filter, keepUpdate, List.any_eq_true]

/-- C4 witness: the `message` update survives the `["message"]` filter on
the mixed batch, because its record carries the key `message`. -/
theorem kind_filter_semantics_witness :
    msg5 ∈ kindFilter ["message"] [msg5, poll2] ↔
      msg5 ∈ [msg5, poll2] ∧ ∃ k ∈ msg5.keys, k ∈ ["message"] :=
  (kind_filter_semantics ["message"] [msg5, poll2] msg5).2.1 (by decide)

/-- C6 counterexample: at cursor 10, a well-formed response whose single
update has update_id 0 drives the cursor down to 1 < 10; the claim that
every step leaves the cursor non-decreasing fails on the code, which
imposes no lower bound on the ids the server returns. -/
theorem cursor_can_decrease :
    pollStep [] true 10 (.success (okResponse [msg0])) =
      StepResult.next 1 (some [{ json := msg0 }])
    ∧ (1 : Nat) < 10 :=
  ⟨rfl, by decide⟩

/-- C6 amended: the cursor is non-decreasing across every step that
continues the loop, provided every update in a received well-formed batch
has `update_id` at least the current cursor (the guarantee the `offset`
request parameter asks of the server); empty batches, malformed
responses and suppressed conflict errors leave it unchanged. -/
theorem cursor_monotone_of_ids_ge_offset (allowedUpdates : List String)
    (isPolling : Bool) (offset newOffset : Nat) (res : RequestResult)
    (emission : Option (List OutputRecord))
    (hids : ∀ updates, res = .success (okResponse updates) →
      ∀ u ∈ updates, offset ≤ u.update_id)
    (hstep : pollStep allowedUpdates isPolling offset res =
      StepResult.next newOffset emission) :
    offset ≤ newOffset := by
  rcases res with ⟨⟨ok, result⟩⟩ | ⟨status⟩
  · cases ok
    · simp only [pollStep, Bool.not_false, if_true] at hstep
      obtain ⟨h1, -⟩ := StepResult.next.inj hstep
      omega
    · rcases result with _ | updates
      · simp only [pollStep, Bool.not_true, Bool.false_eq_true, if_false] at hstep
        obtain ⟨h1, -⟩ := StepResult.next.inj hstep
        omega
      · rcases hl : updates.getLast? with _ | lastUpdate
        · simp only [pollStep, Bool.not_true, Bool.false_eq_true, if_false, hl]
            at hstep
          obtain ⟨h1, -⟩ := StepResult.next.inj hstep
          omega
        · simp only [pollStep, Bool.not_true, Bool.false_eq_true, if_false, hl]
            at hstep
          obtain ⟨h1, -⟩ := StepResult.next.inj hstep
          have hmem : lastUpdate ∈ updates := mem_of_getLast_opt hl
          have hle : offset ≤ lastUpdate.update_id :=
            hids updates rfl lastUpdate hmem
          omega
  · simp only [pollStep] at hstep
    split at hstep
    · obtain ⟨h1, -⟩ := StepResult.next.inj hstep
      omega
    · exact absurd hstep (by simp)

/-- C6 witness: at cursor 3, a batch whose only update has id 5 moves the
cursor to 6 ≥ 3. -/
theorem cursor_monotone_of_ids_ge_offset_witness : (3 : Nat) ≤ 6 :=
  cursor_monotone_of_ids_ge_offset [] true 3 6
    (.success (okResponse [msg5])) (some [{ json := msg5 }])
    (by intro updates hupd u hu
        injection hupd with h1
        injection h1 with hok hres
        injection hres with hlist
        subst hlist
        simp only [List.mem_singleton] at hu
        subst hu
        decide)
    rfl

/-- C8: when the configured updates list contains the wildcard `*`, the
effective allowed list collapses to `[]`, so the `allowed_updates` field
of every request body is `[]` and the local kind filter passes every
batch through unchanged. -/
theorem wildcard_collapses_filter (configuredUpdates : List String)
    (offset limit timeout : Nat) (updates : List Update)
    (hstar : "*" ∈ configuredUpdates) :
    effectiveAllowedUpdates configuredUpdates = []
    ∧ (requestBody offset limit timeout
        (effectiveAllowedUpdates configuredUpdates)).allowed_updates = []
    ∧ kindFilter (effectiveAllowedUpdates configuredUpdates) updates =
        updates := by
  refine ⟨?_, ?_, ?_⟩ <;>
    simp [effectiveAllowedUpdates, hstar, requestBody, kindFilter]

/-- C8 witness: the configuration `["*", "message"]` collapses to the
unfiltered session. -/
theorem wildcard_collapses_filter_witness :
    effectiveAllowedUpdates ["*", "message"] = []
    ∧ (requestBody 0 50 60
        (effectiveAllowedUpdates ["*", "message"])).allowed_updates = []
    ∧ kindFilter (effectiveAllowedUpdates ["*", "message"]) [msg5, poll2] =
        [msg5, poll2] :=
  wildcard_collapses_filter ["*", "message"] 0 50 60 [msg5, poll2]
    (by simp)

/-- C9: for every non-empty received batch, the records passed to the
sink are exactly the filtered batch, each wrapped as `{ json := update }`
with the update unmodified, and the filtered batch is an order-preserving
subsequence of the received batch in which each surviving update keeps
its relative position. -/
theorem emission_preserves_order (allowedUpdates : List String)
    (isPolling : Bool) (offset : Nat) (updates : List Update)
    (lastUpdate : Update) (hlast : updates.getLast? = some lastUpdate) :
    ∃ records,
      pollStep allowedUpdates isPolling offset
        (.success (okResponse updates)) =
        StepResult.next (lastUpdate.update_id + 1) (some records)
      ∧ records.map OutputRecord.json = kindFilter allowedUpdates updates
      ∧ List.Sublist (kindFilter allowedUpdates updates) updates := by
  refine ⟨(kindFilter allowedUpdates updates).map (fun u => { json := u }),
    ?_, ?_, ?_⟩
  · simp [pollStep, okResponse, hlast]
  · rw [List.map_map]
    exact List.map_id (kindFilter allowedUpdates updates)
  · unfold kindFilter
    split
    · exact List.filter_sublist updates
    · exact List.Sublist.refl updates

/-- C9 witness: on the batch `[msg5, poll2, msg3]` with the `["message"]`
filter, the emission is the two message updates in their original order,
a subsequence of the batch. -/
theorem emission_preserves_order_witness :
    ∃ records,
      pollStep ["message"] true 0
        (.success (okResponse [msg5, poll2, msg3])) =
        StepResult.next (msg3.update_id + 1) (some records)
      ∧ records.map OutputRecord.json = kindFilter ["message"] [msg5, poll2, msg3]
      ∧ List.Sublist (kindFilter ["message"] [msg5, poll2, msg3])
          [msg5, poll2, msg3] :=
  emission_preserves_order ["message"] true 0 [msg5, poll2, msg3] msg3 rfl

/-- C10: the cursor after a continuing step does not depend on
`allowedUpdates`: a step that continues with some cursor under one
allowed set continues with the same cursor under any other, and for a
well-formed non-empty batch that cursor is the last update_id plus 1
computed before the filter runs, so locally dropped updates are still
acknowledged. -/
theorem offset_independent_of_filter (allowedA allowedB : List String)
    (isPolling : Bool) (offset newOffset : Nat) (res : RequestResult)
    (emission : Option (List OutputRecord))
    (hstep : pollStep allowedA isPolling offset res =
      StepResult.next newOffset emission) :
    (∃ emissionB, pollStep allowedB isPolling offset res =
      StepResult.next newOffset emissionB)
    ∧ (∀ updates lastUpdate, res = .success (okResponse updates) →
        updates.getLast? = some lastUpdate →
        newOffset = lastUpdate.update_id + 1) := by
  rcases res with ⟨⟨ok, result⟩⟩ | ⟨status⟩
  · cases ok
    · constructor
      · refine ⟨none, ?_⟩
        simp only [pollStep, Bool.not_false, if_true] at hstep ⊢
        obtain ⟨h1, -⟩ := StepResult.next.inj hstep
        rw [h1]
      · intro updates lastUpdate heq hlast'
        simp [okResponse] at heq
    · rcases result with _ | updates
      · constructor
        · refine ⟨none, ?_⟩
          simp only [pollStep, Bool.not_true, Bool.false_eq_true, if_false]
            at hstep ⊢
          obtain ⟨h1, -⟩ := StepResult.next.inj hstep
          rw [h1]
        · intro updates lastUpdate heq hlast'
          simp [okResponse] at heq
      · rcases hl : updates.getLast? with _ | lastUpdate
        · constructor
          · refine ⟨none, ?_⟩
            simp only [pollStep, Bool.not_true, Bool.false_eq_true, if_false,
              hl] at hstep ⊢
            obtain ⟨h1, -⟩ := StepResult.next.inj hstep
            rw [h1]
          · intro updates' lastUpdate' heq hlast'
            obtain ⟨-, hres⟩ := ApiResponse.mk.inj (RequestResult.success.inj heq)
            obtain rfl := (Option.some.inj hres)
            rw [hl] at hlast'
            exact absurd hlast' (by simp)
        · constructor
          · refine ⟨some ((kindFilter allowedB updates).map
              (fun u => { json := u })), ?_⟩
            simp only [pollStep, Bool.not_true, Bool.false_eq_true, if_false,
              hl] at hstep ⊢
            obtain ⟨h1, -⟩ := StepResult.next.inj hstep
            rw [h1]
          · intro updates' lastUpdate' heq hlast'
            obtain ⟨-, hres⟩ := ApiResponse.mk.inj (RequestResult.success.inj heq)
            obtain rfl := (Option.some.inj hres)
            rw [hl] at hlast'
            obtain rfl := Option.some.inj hlast'
            simp only [pollStep, Bool.not_true, Bool.false_eq_true, if_false,
              hl] at hstep
            obtain ⟨h1, -⟩ := StepResult.next.inj hstep
            omega
  · constructor
    · cases hc : (status == some 409 && !isPolling)
      · simp only [pollStep, hc, Bool.false_eq_true, if_false] at hstep
        exact absurd hstep (by simp)
      · refine ⟨none, ?_⟩
        simp only [pollStep, hc, if_true] at hstep ⊢
        obtain ⟨h1, -⟩ := StepResult.next.inj hstep
        rw [h1]
    · intro updates lastUpdate heq hlast'
      exact absurd heq (by simp)

/-- C10 witness: a batch of one `poll` update at offset 0 advances the
cursor to 3 both unfiltered and under the `["message"]` filter that
drops it. -/
theorem offset_independent_of_filter_witness :
    (∃ emissionB, pollStep ["message"] true 0
      (.success (okResponse [poll2])) = StepResult.next 3 emissionB)
    ∧ (∀ updates lastUpdate,
        (RequestResult.success (okResponse [poll2]) : RequestResult) =
          .success (okResponse updates) →
        updates.getLast? = some lastUpdate →
        3 = lastUpdate.update_id + 1) :=
  offset_independent_of_filter [] ["message"] true 0 3
    (.success (okResponse [poll2])) (some [{ json := poll2 }]) rfl

end TelegramPolling
